import Mathlib

/-!
Shallow embedding of `main.go`, the cert-manager webhook for OCI DNS.

The Go program solves ACME DNS-01 challenges by patching a TXT record in an
OCI DNS zone.  This development embeds

* the retry policy (`getDefaultRetryPolicy`, `getExponentialBackoffRetryPolicy`
  and their two closures),
* the request builder `patchRequest`,
* the credential resolver `ociDNSClient` with `stringFromSecretData`,
* the two solver operations `Present` and `CleanUp` with `loadConfig`.

Conventions of the embedding.

* A Go `error` is modelled by its message (`Option String`, `none` is `nil`);
  `fmt.Errorf("... %v", err)` is string concatenation.
* A Go pointer that may be nil is an `Option`.
* Go `int` values that are only compared are `Int`; `uint` arithmetic is taken
  modulo `2^64`, `time.Duration` arithmetic wraps in 64 bits.
* Calls that leave the process (Kubernetes API, environment, OCI SDK, klog) are
  recorded, in program order, in a list of `Call`s returned next to the result;
  what those collaborators answer is supplied by `World` and by the Kubernetes
  client of the solver.
* A run-time panic is an explicit `Fault`.
-/

namespace OciWebhook

/-! ## Retry policy -/

/-- Ways in which evaluating a closure of the retry policy can stop without a value. -/
inductive Fault where
  /-- A field of a nil pointer was read (Go panics). -/
  | nilPointerDereference
  /-- A float64 outside the int64 range was converted to an integer: Go leaves the
  result implementation-defined, the model does not pick one. -/
  | floatConversionOutOfRange
  deriving DecidableEq, Repr

deriving instance DecidableEq for Except

/-- The part of `http.Request` read by the program.  A response obtained through an
HTTP client always carries the request that was sent and that request always has a
URL, so neither is modelled as a nilable pointer. -/
structure HTTPRequest where
  Method : String
  URL : String
  deriving DecidableEq, Repr

/-- The part of `http.Response` read by the program. -/
structure HTTPResponse where
  Status : String
  StatusCode : Int
  Request : HTTPRequest
  deriving DecidableEq, Repr

/-- SDK type `common.OCIOperationResponse`, the outcome of one attempt.
`Response` is the value of `r.Response.HTTPResponse()`, a `*http.Response`
that is nil when the transport produced no response. -/
structure OCIOperationResponse where
  Response : Option HTTPResponse
  Error : Option String
  AttemptNumber : Nat
  deriving DecidableEq, Repr

/-- SDK type `common.RetryPolicy`: attempt cap, retry predicate, backoff schedule
(durations in nanoseconds, as `time.Duration`). -/
structure RetryPolicy where
  MaximumNumberAttempts : Nat
  ShouldRetryOperation : OCIOperationResponse → Except Fault Bool
  NextDuration : OCIOperationResponse → Except Fault Int

/-- SDK function `common.NewRetryPolicy`: assembles the three parts. -/
def NewRetryPolicy (attempts : Nat)
    (retryOperation : OCIOperationResponse → Except Fault Bool)
    (nextDuration : OCIOperationResponse → Except Fault Int) : RetryPolicy :=
  ⟨attempts, retryOperation, nextDuration⟩

/-- The constant `time.Second`, in nanoseconds. -/
def Second : Int := 1000000000

/-- Wrap of an integer into the int64 range, as in two-complement arithmetic. -/
def wrapInt64 (n : Int) : Int := (n + 2 ^ 63) % 2 ^ 64 - 2 ^ 63

/-- The closure `retryOnAllNon200ResponseCodes` of `getDefaultRetryPolicy`.
`response.StatusCode` is read on every path of the boolean expression (when
`r.Error` is non-nil the left disjunct short-circuits and the right one reads it),
so a nil `response` panics.  The klog line only reports; it reads `response` again. -/
def retryOnAllNon200ResponseCodes (r : OCIOperationResponse) : Except Fault Bool :=
  match r.Response with
  | none => .error .nilPointerDereference
  | some response =>
    let retry := !((r.Error.isNone && decide (199 < response.StatusCode)
                      && decide (response.StatusCode < 300))
                    || decide (response.StatusCode = 401))
    .ok retry

/-- The closure `exponentialBackoff` of `getExponentialBackoffRetryPolicy`.
`r.AttemptNumber-1` is `uint` arithmetic; `math.Pow(2, e)` is the exact power of two
for an integer exponent, and its conversion to `time.Duration` is exact up to
`2^62`; the product with `time.Second` wraps in 64 bits.  The arguments of the klog
line (`response.Request.Method`, `response.Request.URL.String()`) are evaluated
before the function returns, so a nil `response` panics whatever the duration. -/
def exponentialBackoff (r : OCIOperationResponse) : Except Fault Int :=
  let response := r.Response
  let e : Nat := (r.AttemptNumber + 2 ^ 64 - 1) % 2 ^ 64
  match response with
  | none => .error .nilPointerDereference
  | some _ =>
    if e ≤ 62 then
      let duration := wrapInt64 ((2 : Int) ^ e * Second)
      .ok duration
    else .error .floatConversionOutOfRange

/-- Go `getExponentialBackoffRetryPolicy`. -/
def getExponentialBackoffRetryPolicy (n : Nat)
    (fn : OCIOperationResponse → Except Fault Bool) : RetryPolicy :=
  NewRetryPolicy n fn exponentialBackoff

/-- Go `getDefaultRetryPolicy`. -/
def getDefaultRetryPolicy : RetryPolicy :=
  let attempts := 10
  getExponentialBackoffRetryPolicy attempts retryOnAllNon200ResponseCodes

/-- SDK type `common.RequestMetadata`, of which only the retry policy is set. -/
structure RequestMetadata where
  RetryPolicy : Option RetryPolicy

/-- Go `getRequestMetadataWithDefaultRetryPolicy`. -/
def getRequestMetadataWithDefaultRetryPolicy : RequestMetadata :=
  ⟨some getDefaultRetryPolicy⟩

/-! ## Strings -/

/-- Go `strings.HasSuffix`: `len(s) >= len(suffix) && s[len(s)-len(suffix):] == suffix`.
Go compares bytes, the model compares characters; for the ASCII suffixes the program
uses the two agree on UTF-8 text. -/
def HasSuffix (s suffix : String) : Bool :=
  decide (suffix.data.length ≤ s.data.length)
    && (s.data.drop (s.data.length - suffix.data.length) == suffix.data)

/-- Go `strings.TrimSuffix`: `s` without the trailing `suffix` when it has one,
`s` itself otherwise. -/
def TrimSuffix (s suffix : String) : String :=
  if HasSuffix s suffix then ⟨s.data.take (s.data.length - suffix.data.length)⟩ else s

/-- The `%q` verb of package fmt on a string without characters that need
escaping (the only strings it is applied to are the six literal field names). -/
def goQuote (s : String) : String := "\"" ++ s ++ "\""

/-! ## Data model -/

/-- Go `ociDNSProviderConfig`, decoded from the JSON configuration of the issuer. -/
structure ociDNSProviderConfig where
  CompartmentOCID : String
  OCIProfileSecretRef : String
  deriving DecidableEq, Repr

/-- The fields of the cert-manager type `v1alpha1.ChallengeRequest` that the program reads.
`Config` is the raw JSON of the `*extapi.JSON` blob, `none` when the pointer is nil. -/
structure ChallengeRequest where
  ResourceNamespace : String
  ResolvedFQDN : String
  ResolvedZone : String
  Key : String
  Config : Option String
  deriving DecidableEq, Repr

/-- SDK type `dns.RecordOperationOperationEnum`. -/
inductive RecordOperationOperationEnum where
  | RecordOperationOperationRequire
  | RecordOperationOperationProhibit
  | RecordOperationOperationAdd
  | RecordOperationOperationRemove
  deriving DecidableEq, Repr

export RecordOperationOperationEnum (RecordOperationOperationRequire
  RecordOperationOperationProhibit RecordOperationOperationAdd RecordOperationOperationRemove)

/-- SDK type `dns.RecordOperation`; the fields the program leaves at their zero
value (`RecordHash`, `IsProtected`, `RrsetVersion`) are not represented. -/
structure RecordOperation where
  Domain : Option String
  Rtype : Option String
  Rdata : Option String
  Ttl : Option Int
  Operation : RecordOperationOperationEnum
  deriving DecidableEq, Repr

/-- SDK type `dns.PatchZoneRecordsDetails`. -/
structure PatchZoneRecordsDetails where
  Items : List RecordOperation
  deriving DecidableEq, Repr

/-- SDK type `dns.PatchZoneRecordsRequest`; the fields the program leaves at their
zero value are not represented. -/
structure PatchZoneRecordsRequest where
  CompartmentId : Option String
  ZoneNameOrId : Option String
  PatchZoneRecordsDetails : PatchZoneRecordsDetails
  RequestMetadata : RequestMetadata

/-- Go `patchRequest`. -/
def patchRequest (cfg : ociDNSProviderConfig) (ch : ChallengeRequest)
    (operation : RecordOperationOperationEnum) : PatchZoneRecordsRequest :=
  let domain := TrimSuffix ch.ResolvedFQDN "."
  let rtype := "TXT"
  let ttl : Int := 60
  { CompartmentId := some cfg.CompartmentOCID
    ZoneNameOrId := some ch.ResolvedZone
    PatchZoneRecordsDetails :=
      { Items := [
          { Domain := some domain
            Rtype := some rtype
            Rdata := some ch.Key
            Ttl := some ttl
            Operation := operation } ] }
    RequestMetadata := getRequestMetadataWithDefaultRetryPolicy }

/-! ## Collaborators outside the process -/

/-- The part of a Kubernetes `v1.Secret` that is read: the `Data` map, from field
name to value, as an association list. -/
structure Secret where
  Data : List (String × String)
  deriving DecidableEq, Repr

/-- The typed Kubernetes client.  `secretsGet ns name` answers
`CoreV1().Secrets(ns).Get(ctx, name, ...)`: the secret object (the typed client
allocates it before the request, so it is never nil) and the error. -/
structure Clientset where
  secretsGet : String → String → Secret × Option String

/-- Go `ociDNSProviderSolver`, after `Initialize` has stored the client. -/
structure ociDNSProviderSolver where
  client : Clientset

/-- SDK type `common.ConfigurationProvider`, by the strategy that produced it. -/
inductive ConfigurationProvider where
  | workloadIdentity
  | raw (tenancy user region fingerprint privateKey : String)
      (privateKeyPassphrase : Option String)
  | instancePrincipal
  deriving DecidableEq, Repr

/-- SDK type `dns.DnsClient`, built over a configuration provider. -/
structure DnsClient where
  configProvider : ConfigurationProvider
  deriving DecidableEq, Repr

/-- A call that leaves the process, as recorded in the trace of an operation. -/
inductive Call where
  | klog (msg : String)
  | secretsGet (ns name : String)
  | getenv (key : String)
  | okeWorkloadIdentityConfigurationProvider
  | newRawConfigurationProvider (tenancy user region fingerprint privateKey : String)
      (privateKeyPassphrase : Option String)
  | instancePrincipalConfigurationProvider
  | newDnsClientWithConfigurationProvider (configProvider : ConfigurationProvider)
  | patchZoneRecords (client : DnsClient) (request : PatchZoneRecordsRequest)

/-- What the environment answers to each call other than the secret lookup. -/
structure World where
  /-- Answer of `os.Getenv`. -/
  getenv : String → String
  /-- Answer of `json.Unmarshal` into a zeroed `ociDNSProviderConfig`. -/
  jsonUnmarshal : String → Except String ociDNSProviderConfig
  /-- The error of `auth.OkeWorkloadIdentityConfigurationProvider()`. -/
  okeWorkloadIdentityConfigurationProvider : Option String
  /-- The error of `auth.InstancePrincipalConfigurationProvider()`. -/
  instancePrincipalConfigurationProvider : Option String
  /-- The error of `dns.NewDnsClientWithConfigurationProvider`. -/
  newDnsClientWithConfigurationProvider : ConfigurationProvider → Option String
  /-- The error of `DnsClient.PatchZoneRecords`, after the transport has applied the
  retry policy of the request. -/
  patchZoneRecords : DnsClient → PatchZoneRecordsRequest → Option String

/-! ## Credential resolution -/

/-- Go `stringFromSecretData`: the value and a nil error, or the empty string and
an error naming the key. -/
def stringFromSecretData (secretData : List (String × String)) (key : String) :
    String × Option String :=
  match secretData.lookup key with
  | none => ("", some ("key " ++ goQuote key ++ " not found in secret data"))
  | some bytes => (bytes, none)

/-- One `if err != nil` block of `ociDNSClient`: clears the validity flag and
extends the diagnostic with
`fmt.Sprintf("%s\nunable to get <what> from secret ...; %v", msg, secretName, ns, err)`.
All seven blocks share this shape; `what` is the text between `unable to get ` and
the first backquote. -/
def noteLookupError (st : Bool × String) (what secretName ns : String)
    (err : Option String) : Bool × String :=
  match err with
  | some e =>
    (false, st.2 ++ "\nunable to get " ++ what ++ "`" ++ secretName ++ "/" ++ ns ++ "`; " ++ e)
  | none => st

/-- Go `ociDNSProviderSolver.ociDNSClient`: the trace of calls and the client or
the error. -/
def ociDNSClient (w : World) (c : ociDNSProviderSolver) (cfg : ociDNSProviderConfig)
    (ns : String) : List Call × Except String DnsClient :=
  let secretName := cfg.OCIProfileSecretRef
  let t : List Call := [.klog ("Trying to load oci profile from secret `" ++ secretName
                          ++ "` in namespace `" ++ ns ++ "`")]
  -- userConfigIsValid = true; userConfigErrorMsg = ""
  let st : Bool × String := (true, "")
  let got := c.client.secretsGet ns secretName
  let sec := got.1
  let t := t ++ [.secretsGet ns secretName]
  let st := noteLookupError st "secret " secretName ns got.2
  let tenancy := stringFromSecretData sec.Data "tenancy"
  let st := noteLookupError st "tenancy from secret " secretName ns tenancy.2
  let user := stringFromSecretData sec.Data "user"
  let st := noteLookupError st "user from secret " secretName ns user.2
  let region := stringFromSecretData sec.Data "region"
  let st := noteLookupError st "region from secret " secretName ns region.2
  let fingerprint := stringFromSecretData sec.Data "fingerprint"
  let st := noteLookupError st "fingerprint from secret " secretName ns fingerprint.2
  let privateKey := stringFromSecretData sec.Data "privateKey"
  let st := noteLookupError st "privateKey from secret " secretName ns privateKey.2
  let privateKeyPassphrase := stringFromSecretData sec.Data "privateKeyPassphrase"
  let st := noteLookupError st "privateKeyPassphrase from secret " secretName ns
    privateKeyPassphrase.2
  let userConfigIsValid := st.1
  let userConfigErrorMsg := st.2
  -- the tail of the function, reached from each branch that obtained a provider
  let newClient (t : List Call) (configProvider : ConfigurationProvider) :
      List Call × Except String DnsClient :=
    let t := t ++ [.newDnsClientWithConfigurationProvider configProvider]
    match w.newDnsClientWithConfigurationProvider configProvider with
    | some err => (t, .error err)
    | none => (t, .ok ⟨configProvider⟩)
  let t := t ++ [.getenv "OCI_USE_WORKLOAD_IDENTITY"]
  if w.getenv "OCI_USE_WORKLOAD_IDENTITY" = "true" then
    let t := t ++ [.okeWorkloadIdentityConfigurationProvider]
    match w.okeWorkloadIdentityConfigurationProvider with
    | some err => (t, .error ("unable to authenticate with Workload Identity; " ++ err))
    | none => newClient t .workloadIdentity
  else if userConfigIsValid then
    let t := t ++ [.newRawConfigurationProvider tenancy.1 user.1 region.1 fingerprint.1
                    privateKey.1 (some privateKeyPassphrase.1)]
    newClient t (.raw tenancy.1 user.1 region.1 fingerprint.1 privateKey.1
                  (some privateKeyPassphrase.1))
  else
    let t := t ++ [.klog ("user config not valid: " ++ userConfigErrorMsg),
                   .klog "trying Instance Principal auth",
                   .instancePrincipalConfigurationProvider]
    match w.instancePrincipalConfigurationProvider with
    | some err => (t, .error ("unable to authenticate with Instance Principal; " ++ err))
    | none => newClient t .instancePrincipal

/-! ## The solver operations -/

/-- Go `loadConfig`: a nil blob decodes to the zero configuration. -/
def loadConfig (w : World) (cfgJSON : Option String) : Except String ociDNSProviderConfig :=
  let cfg : ociDNSProviderConfig := ⟨"", ""⟩
  match cfgJSON with
  | none => .ok cfg
  | some raw =>
    match w.jsonUnmarshal raw with
    | .error err => .error ("cannot unmarshal raw JSON: " ++ err)
    | .ok cfg => .ok cfg

/-- Go `ociDNSProviderSolver.Present`: the trace of calls and the returned error. -/
def Present (w : World) (c : ociDNSProviderSolver) (ch : ChallengeRequest) :
    List Call × Option String :=
  let t : List Call := [.klog ("call function Present: namespace=" ++ ch.ResourceNamespace
                          ++ ", zone=" ++ ch.ResolvedZone ++ ", fqdn=" ++ ch.ResolvedFQDN)]
  match loadConfig w ch.Config with
  | .error err => (t, some ("unable to load config: " ++ err))
  | .ok cfg =>
    let r := ociDNSClient w c cfg ch.ResourceNamespace
    let t := t ++ r.1
    match r.2 with
    | .error err => (t, some ("unable to initialize ociDNSClient: " ++ err))
    | .ok ociDNSClient =>
      let request := patchRequest cfg ch RecordOperationOperationAdd
      let t := t ++ [.patchZoneRecords ociDNSClient request]
      match w.patchZoneRecords ociDNSClient request with
      | some err => (t, some ("can not create TXT record: " ++ err))
      | none => (t, none)

/-- Go `ociDNSProviderSolver.CleanUp`: the trace of calls and the returned error. -/
def CleanUp (w : World) (c : ociDNSProviderSolver) (ch : ChallengeRequest) :
    List Call × Option String :=
  let t : List Call := [.klog ("call function CleanUp: namespace=" ++ ch.ResourceNamespace
                          ++ ", zone=" ++ ch.ResolvedZone ++ ", fqdn=" ++ ch.ResolvedFQDN)]
  match loadConfig w ch.Config with
  | .error err => (t, some ("unable to load config: " ++ err))
  | .ok cfg =>
    let r := ociDNSClient w c cfg ch.ResourceNamespace
    let t := t ++ r.1
    match r.2 with
    | .error err => (t, some ("unable to initialize ociDNSClient: " ++ err))
    | .ok ociDNSClient =>
      let request := patchRequest cfg ch RecordOperationOperationRemove
      let t := t ++ [.patchZoneRecords ociDNSClient request]
      match w.patchZoneRecords ociDNSClient request with
      | some err => (t, some ("can not delete TXT record: " ++ err))
      | none => (t, none)


/-! ## Observations on traces -/

/-- The six fields the explicit-credential strategy needs from the secret. -/
def requiredKeys : List String :=
  ["tenancy", "user", "region", "fingerprint", "privateKey", "privateKeyPassphrase"]

/-- The call is a read of secret storage. -/
def Call.isSecretRead : Call → Bool
  | .secretsGet _ _ => true
  | _ => false

/-- The call initialises the workload-identity strategy. -/
def Call.isWorkloadIdentity : Call → Bool
  | .okeWorkloadIdentityConfigurationProvider => true
  | _ => false

/-- The call selects the explicit-credential strategy. -/
def Call.isExplicitCredential : Call → Bool
  | .newRawConfigurationProvider _ _ _ _ _ _ => true
  | _ => false

/-- The call initialises the instance-principal strategy. -/
def Call.isInstancePrincipal : Call → Bool
  | .instancePrincipalConfigurationProvider => true
  | _ => false

/-- The call builds the DNS client. -/
def Call.isClientConstruction : Call → Bool
  | .newDnsClientWithConfigurationProvider _ => true
  | _ => false

/-- The call is the provider mutation. -/
def Call.isMutation : Call → Bool
  | .patchZoneRecords _ _ => true
  | _ => false

/-- The call is a diagnostic log line. -/
def Call.isLog : Call → Bool
  | .klog _ => true
  | _ => false

/-- The mutation requests submitted in a trace, in order. -/
def submitted : List Call → List PatchZoneRecordsRequest
  | [] => []
  | .patchZoneRecords _ request :: t => request :: submitted t
  | _ :: t => submitted t

/-- The value of the local variable `userConfigIsValid` of `ociDNSClient` when the
strategy is chosen, as a function of what the secret lookup answered. -/
def userConfigIsValid (got : Secret × Option String) : Bool :=
  true && got.2.isNone && (got.1.Data.lookup "tenancy").isSome
    && (got.1.Data.lookup "user").isSome && (got.1.Data.lookup "region").isSome
    && (got.1.Data.lookup "fingerprint").isSome && (got.1.Data.lookup "privateKey").isSome
    && (got.1.Data.lookup "privateKeyPassphrase").isSome

/-- The calls `ociDNSClient` makes before it chooses a strategy. -/
def resolverPrelude (cfg : ociDNSProviderConfig) (ns : String) : List Call :=
  [.klog ("Trying to load oci profile from secret `" ++ cfg.OCIProfileSecretRef
      ++ "` in namespace `" ++ ns ++ "`"),
   .secretsGet ns cfg.OCIProfileSecretRef,
   .getenv "OCI_USE_WORKLOAD_IDENTITY"]

/-- The provider the explicit-credential strategy builds from a secret. -/
def rawProviderOf (sec : Secret) : ConfigurationProvider :=
  .raw (stringFromSecretData sec.Data "tenancy").1 (stringFromSecretData sec.Data "user").1
    (stringFromSecretData sec.Data "region").1 (stringFromSecretData sec.Data "fingerprint").1
    (stringFromSecretData sec.Data "privateKey").1
    (some (stringFromSecretData sec.Data "privateKeyPassphrase").1)

/-- The outcome of building the DNS client over a provider. -/
def clientOutcome (w : World) (p : ConfigurationProvider) : Except String DnsClient :=
  match w.newDnsClientWithConfigurationProvider p with
  | some err => .error err
  | none => .ok ⟨p⟩

/-- The value of the local variable `userConfigErrorMsg` of `ociDNSClient` when the
strategy is chosen: the diagnostics of the seven checks, in order. -/
def userConfigErrorMsg (got : Secret × Option String) (secretName ns : String) : String :=
  let st : Bool × String := (true, "")
  let st := noteLookupError st "secret " secretName ns got.2
  let st := noteLookupError st "tenancy from secret " secretName ns
    (stringFromSecretData got.1.Data "tenancy").2
  let st := noteLookupError st "user from secret " secretName ns
    (stringFromSecretData got.1.Data "user").2
  let st := noteLookupError st "region from secret " secretName ns
    (stringFromSecretData got.1.Data "region").2
  let st := noteLookupError st "fingerprint from secret " secretName ns
    (stringFromSecretData got.1.Data "fingerprint").2
  let st := noteLookupError st "privateKey from secret " secretName ns
    (stringFromSecretData got.1.Data "privateKey").2
  let st := noteLookupError st "privateKeyPassphrase from secret " secretName ns
    (stringFromSecretData got.1.Data "privateKeyPassphrase").2
  st.2

/-- The call with the operation kind of every record operation it submits replaced. -/
def Call.withOperation (op : RecordOperationOperationEnum) : Call → Call
  | .patchZoneRecords client request =>
    .patchZoneRecords client
      { request with
        PatchZoneRecordsDetails :=
          ⟨request.PatchZoneRecordsDetails.Items.map fun item => { item with Operation := op }⟩ }
  | other => other

/-! ## Sample inputs -/

/-- A challenge request as cert-manager sends it. -/
def sampleRequest : ChallengeRequest :=
  { ResourceNamespace := "cert-manager"
    ResolvedFQDN := "_acme-challenge.example.com."
    ResolvedZone := "example.com"
    Key := "abc123"
    Config := some "issuer-config" }

/-- The configuration the sample blob decodes to. -/
def sampleConfig : ociDNSProviderConfig :=
  { CompartmentOCID := "ocid1.compartment.oc1..example"
    OCIProfileSecretRef := "oci-profile" }

/-- A secret with all six fields. -/
def sampleSecret : Secret :=
  ⟨[("tenancy", "ocid1.tenancy.oc1..example"), ("user", "ocid1.user.oc1..example"),
    ("region", "us-ashburn-1"), ("fingerprint", "aa:bb:cc"), ("privateKey", "PEM"),
    ("privateKeyPassphrase", "")]⟩

/-- A secret without the passphrase field. -/
def incompleteSecret : Secret :=
  ⟨[("tenancy", "ocid1.tenancy.oc1..example"), ("user", "ocid1.user.oc1..example"),
    ("region", "us-ashburn-1"), ("fingerprint", "aa:bb:cc"), ("privateKey", "PEM")]⟩

/-- A solver whose cluster holds `sampleSecret` under the name `oci-profile`. -/
def sampleSolver : ociDNSProviderSolver :=
  ⟨⟨fun _ name =>
    if name = "oci-profile" then (sampleSecret, none) else (⟨[]⟩, some "secret not found")⟩⟩

/-- A solver whose cluster holds `incompleteSecret` under the name `oci-profile`. -/
def incompleteSolver : ociDNSProviderSolver :=
  ⟨⟨fun _ name =>
    if name = "oci-profile" then (incompleteSecret, none) else (⟨[]⟩, some "secret not found")⟩⟩

/-- A world with the workload-identity flag unset in which every collaborator succeeds. -/
def sampleWorld : World :=
  { getenv := fun _ => ""
    jsonUnmarshal := fun raw =>
      if raw = "issuer-config" then .ok sampleConfig else .error "unexpected end of JSON input"
    okeWorkloadIdentityConfigurationProvider := none
    instancePrincipalConfigurationProvider := none
    newDnsClientWithConfigurationProvider := fun _ => none
    patchZoneRecords := fun _ _ => none }

/-- A world with the workload-identity flag set, in which that provider cannot initialise. -/
def workloadIdentityWorld : World :=
  { sampleWorld with
    getenv := fun key => if key = "OCI_USE_WORKLOAD_IDENTITY" then "true" else ""
    okeWorkloadIdentityConfigurationProvider := some "token file not found" }

/-- A world in which the instance-principal provider cannot initialise. -/
def noPrincipalWorld : World :=
  { sampleWorld with
    instancePrincipalConfigurationProvider := some "metadata service unreachable" }

/-- A world in which the provider rejects the mutation. -/
def rejectingWorld : World :=
  { sampleWorld with patchZoneRecords := fun _ _ => some "Service error:NotAuthorizedOrNotFound" }

/-- A request whose configuration blob does not decode. -/
def malformedRequest : ChallengeRequest :=
  { sampleRequest with Config := some "compartmentOCID" }

/-- An HTTP request of the kind the DNS client sends. -/
def sampleHTTPRequest : HTTPRequest :=
  ⟨"PATCH", "https://dns.us-ashburn-1.oci.oraclecloud.com/20180115/zones/example.com/records"⟩

/-! ## Auxiliary facts -/

theorem hasSuffix_iff (s suffix : String) :
    HasSuffix s suffix = true ↔ suffix.data <:+ s.data := by
  unfold HasSuffix
  constructor
  · intro h
    simp only [Bool.and_eq_true, decide_eq_true_eq, beq_iff_eq] at h
    exact List.suffix_iff_eq_drop.mpr h.2.symm
  · intro hs
    have hl := hs.length_le
    have hd := List.suffix_iff_eq_drop.mp hs
    simp only [Bool.and_eq_true, decide_eq_true_eq, beq_iff_eq]
    exact ⟨hl, hd.symm⟩

theorem TrimSuffix_append (s suffix : String) : TrimSuffix (s ++ suffix) suffix = s := by
  have h : HasSuffix (s ++ suffix) suffix = true := by
    rw [hasSuffix_iff]; simp
  simp [TrimSuffix, h]

theorem TrimSuffix_of_not_hasSuffix (s suffix : String) (h : HasSuffix s suffix = false) :
    TrimSuffix s suffix = s := by
  simp [TrimSuffix, h]

theorem exists_append_of_hasSuffix (s suffix : String) (h : HasSuffix s suffix = true) :
    ∃ t : String, s = t ++ suffix := by
  rw [hasSuffix_iff] at h
  obtain ⟨t, ht⟩ := h
  refine ⟨⟨t⟩, ?_⟩
  apply String.ext
  simp [ht]

theorem hasSuffix_dot_of_append_dot (t : String) :
    HasSuffix (t ++ ".") ".." = HasSuffix t "." := by
  rw [Bool.eq_iff_iff, hasSuffix_iff, hasSuffix_iff]
  constructor
  · rintro ⟨u, hu⟩
    refine ⟨u, ?_⟩
    have : (u ++ ['.']) ++ ['.'] = t.data ++ ['.'] := by
      simpa using hu
    exact List.append_cancel_right this
  · rintro ⟨u, hu⟩
    refine ⟨u, ?_⟩
    have : (".." : String).data = ['.'] ++ ['.'] := rfl
    rw [this, ← List.append_assoc]
    have h2 : ("." : String).data = ['.'] := rfl
    rw [h2] at hu
    rw [hu]; simp


theorem noteLookupError_fst (st : Bool × String) (what a b : String) (err : Option String) :
    (noteLookupError st what a b err).1 = (st.1 && err.isNone) := by
  cases err <;> simp [noteLookupError]

theorem stringFromSecretData_snd (d : List (String × String)) (k : String) :
    (stringFromSecretData d k).2.isNone = (d.lookup k).isSome := by
  unfold stringFromSecretData
  cases d.lookup k <;> simp

theorem userConfigIsValid_iff (got : Secret × Option String) :
    userConfigIsValid got = true ↔
      got.2 = none ∧ ∀ k ∈ requiredKeys, (got.1.Data.lookup k).isSome = true := by
  simp only [userConfigIsValid, requiredKeys, Bool.and_eq_true, List.mem_cons,
    List.mem_singleton, forall_eq_or_imp, forall_eq, Option.isNone_iff_eq_none,
    Bool.true_and, List.not_mem_nil, false_imp_iff, implies_true, and_true, and_assoc]

theorem userConfigIsValid_false_iff (got : Secret × Option String) :
    userConfigIsValid got = false ↔
      got.2 ≠ none ∨ ∃ k ∈ requiredKeys, got.1.Data.lookup k = none := by
  rw [← Bool.not_eq_true, userConfigIsValid_iff]
  simp only [not_and_or, not_forall, exists_prop, Option.not_isSome_iff_eq_none, ne_eq]

theorem ociDNSClient_workloadIdentity (w : World) (c : ociDNSProviderSolver)
    (cfg : ociDNSProviderConfig) (ns : String)
    (hf : w.getenv "OCI_USE_WORKLOAD_IDENTITY" = "true") :
    ociDNSClient w c cfg ns =
      match w.okeWorkloadIdentityConfigurationProvider with
      | some err =>
        (resolverPrelude cfg ns ++ [.okeWorkloadIdentityConfigurationProvider],
          .error ("unable to authenticate with Workload Identity; " ++ err))
      | none =>
        (resolverPrelude cfg ns ++ [.okeWorkloadIdentityConfigurationProvider,
            .newDnsClientWithConfigurationProvider .workloadIdentity],
          clientOutcome w .workloadIdentity) := by
  unfold ociDNSClient clientOutcome resolverPrelude
  cases h1 : w.okeWorkloadIdentityConfigurationProvider <;>
  cases h2 : w.newDnsClientWithConfigurationProvider .workloadIdentity <;>
  simp [hf, h1, h2]

theorem ociDNSClient_explicit (w : World) (c : ociDNSProviderSolver)
    (cfg : ociDNSProviderConfig) (ns : String)
    (hf : w.getenv "OCI_USE_WORKLOAD_IDENTITY" ≠ "true")
    (hv : userConfigIsValid (c.client.secretsGet ns cfg.OCIProfileSecretRef) = true) :
    ociDNSClient w c cfg ns =
      (resolverPrelude cfg ns ++
        [.newRawConfigurationProvider
            (stringFromSecretData (c.client.secretsGet ns cfg.OCIProfileSecretRef).1.Data "tenancy").1
            (stringFromSecretData (c.client.secretsGet ns cfg.OCIProfileSecretRef).1.Data "user").1
            (stringFromSecretData (c.client.secretsGet ns cfg.OCIProfileSecretRef).1.Data "region").1
            (stringFromSecretData (c.client.secretsGet ns cfg.OCIProfileSecretRef).1.Data "fingerprint").1
            (stringFromSecretData (c.client.secretsGet ns cfg.OCIProfileSecretRef).1.Data "privateKey").1
            (some (stringFromSecretData (c.client.secretsGet ns cfg.OCIProfileSecretRef).1.Data
              "privateKeyPassphrase").1),
         .newDnsClientWithConfigurationProvider
            (rawProviderOf (c.client.secretsGet ns cfg.OCIProfileSecretRef).1)],
        clientOutcome w (rawProviderOf (c.client.secretsGet ns cfg.OCIProfileSecretRef).1)) := by
  unfold ociDNSClient clientOutcome resolverPrelude
  simp only [noteLookupError_fst, stringFromSecretData_snd]
  unfold userConfigIsValid at hv
  simp only [hf, if_false, hv, if_true, rawProviderOf]
  cases h2 : w.newDnsClientWithConfigurationProvider
      (rawProviderOf (c.client.secretsGet ns cfg.OCIProfileSecretRef).1) <;>
  simp [rawProviderOf] at h2 ⊢ <;> simp [h2]

theorem ociDNSClient_instancePrincipal (w : World) (c : ociDNSProviderSolver)
    (cfg : ociDNSProviderConfig) (ns : String)
    (hf : w.getenv "OCI_USE_WORKLOAD_IDENTITY" ≠ "true")
    (hv : userConfigIsValid (c.client.secretsGet ns cfg.OCIProfileSecretRef) = false) :
    ociDNSClient w c cfg ns =
      match w.instancePrincipalConfigurationProvider with
      | some err =>
        (resolverPrelude cfg ns ++
          [.klog ("user config not valid: " ++ userConfigErrorMsg
              (c.client.secretsGet ns cfg.OCIProfileSecretRef) cfg.OCIProfileSecretRef ns),
            .klog "trying Instance Principal auth", .instancePrincipalConfigurationProvider],
          .error ("unable to authenticate with Instance Principal; " ++ err))
      | none =>
        (resolverPrelude cfg ns ++
          [.klog ("user config not valid: " ++ userConfigErrorMsg
              (c.client.secretsGet ns cfg.OCIProfileSecretRef) cfg.OCIProfileSecretRef ns),
            .klog "trying Instance Principal auth", .instancePrincipalConfigurationProvider,
            .newDnsClientWithConfigurationProvider .instancePrincipal],
          clientOutcome w .instancePrincipal) := by
  unfold ociDNSClient clientOutcome resolverPrelude userConfigErrorMsg
  simp only [noteLookupError_fst, stringFromSecretData_snd]
  unfold userConfigIsValid at hv
  simp only [hf, if_false, hv, Bool.false_eq_true]
  cases h1 : w.instancePrincipalConfigurationProvider <;>
  cases h2 : w.newDnsClientWithConfigurationProvider .instancePrincipal <;>
  simp [h1, h2]

theorem ociDNSClient_trace_shape (w : World) (c : ociDNSProviderSolver)
    (cfg : ociDNSProviderConfig) (ns : String) :
    ∃ mid : List Call,
      (ociDNSClient w c cfg ns).1 = resolverPrelude cfg ns ++ mid ∧
      ∀ x ∈ mid, x.isSecretRead = false ∧ x.isMutation = false := by
  by_cases hf : w.getenv "OCI_USE_WORKLOAD_IDENTITY" = "true"
  · rw [ociDNSClient_workloadIdentity w c cfg ns hf]
    cases w.okeWorkloadIdentityConfigurationProvider <;>
    exact ⟨_, rfl, by simp [Call.isSecretRead, Call.isMutation]⟩
  · cases hv : userConfigIsValid (c.client.secretsGet ns cfg.OCIProfileSecretRef)
    · rw [ociDNSClient_instancePrincipal w c cfg ns hf hv]
      cases w.instancePrincipalConfigurationProvider <;>
      exact ⟨_, rfl, by simp [Call.isSecretRead, Call.isMutation]⟩
    · rw [ociDNSClient_explicit w c cfg ns hf hv]
      exact ⟨_, rfl, by simp [Call.isSecretRead, Call.isMutation]⟩

theorem ociDNSClient_no_mutation (w : World) (c : ociDNSProviderSolver)
    (cfg : ociDNSProviderConfig) (ns : String) :
    ∀ x ∈ (ociDNSClient w c cfg ns).1, x.isMutation = false := by
  obtain ⟨mid, h, hm⟩ := ociDNSClient_trace_shape w c cfg ns
  rw [h]
  intro x hx
  rcases List.mem_append.mp hx with hx | hx
  · simp only [resolverPrelude, List.mem_cons, List.mem_singleton, List.not_mem_nil,
      or_false] at hx
    rcases hx with rfl | rfl | rfl <;> rfl
  · exact (hm x hx).2

theorem ociDNSClient_secret_read_once (w : World) (c : ociDNSProviderSolver)
    (cfg : ociDNSProviderConfig) (ns : String) :
    (ociDNSClient w c cfg ns).1.countP Call.isSecretRead = 1 := by
  obtain ⟨mid, h, hm⟩ := ociDNSClient_trace_shape w c cfg ns
  rw [h, List.countP_append]
  have h0 : mid.countP Call.isSecretRead = 0 := by
    rw [List.countP_eq_zero]
    intro x hx
    simp [(hm x hx).1]
  rw [h0]
  simp [resolverPrelude, Call.isSecretRead, List.countP_cons]

theorem Present_decode_error (w : World) (c : ociDNSProviderSolver) (ch : ChallengeRequest)
    (err : String) (h : loadConfig w ch.Config = .error err) :
    Present w c ch =
      ([.klog ("call function Present: namespace=" ++ ch.ResourceNamespace
          ++ ", zone=" ++ ch.ResolvedZone ++ ", fqdn=" ++ ch.ResolvedFQDN)],
        some ("unable to load config: " ++ err)) := by
  unfold Present
  simp only [h]

theorem Present_client_error (w : World) (c : ociDNSProviderSolver) (ch : ChallengeRequest)
    (cfg : ociDNSProviderConfig) (err : String) (h : loadConfig w ch.Config = .ok cfg)
    (h2 : (ociDNSClient w c cfg ch.ResourceNamespace).2 = .error err) :
    Present w c ch =
      ([.klog ("call function Present: namespace=" ++ ch.ResourceNamespace
          ++ ", zone=" ++ ch.ResolvedZone ++ ", fqdn=" ++ ch.ResolvedFQDN)]
        ++ (ociDNSClient w c cfg ch.ResourceNamespace).1,
        some ("unable to initialize ociDNSClient: " ++ err)) := by
  unfold Present
  simp only [h, h2]

theorem Present_mutation (w : World) (c : ociDNSProviderSolver) (ch : ChallengeRequest)
    (cfg : ociDNSProviderConfig) (client : DnsClient) (h : loadConfig w ch.Config = .ok cfg)
    (h2 : (ociDNSClient w c cfg ch.ResourceNamespace).2 = .ok client) :
    Present w c ch =
      ([.klog ("call function Present: namespace=" ++ ch.ResourceNamespace
          ++ ", zone=" ++ ch.ResolvedZone ++ ", fqdn=" ++ ch.ResolvedFQDN)]
        ++ (ociDNSClient w c cfg ch.ResourceNamespace).1
        ++ [.patchZoneRecords client (patchRequest cfg ch RecordOperationOperationAdd)],
        (w.patchZoneRecords client (patchRequest cfg ch RecordOperationOperationAdd)).map
          fun err => "can not create TXT record: " ++ err) := by
  unfold Present
  simp only [h, h2]
  cases w.patchZoneRecords client (patchRequest cfg ch RecordOperationOperationAdd) <;> rfl

theorem CleanUp_decode_error (w : World) (c : ociDNSProviderSolver) (ch : ChallengeRequest)
    (err : String) (h : loadConfig w ch.Config = .error err) :
    CleanUp w c ch =
      ([.klog ("call function CleanUp: namespace=" ++ ch.ResourceNamespace
          ++ ", zone=" ++ ch.ResolvedZone ++ ", fqdn=" ++ ch.ResolvedFQDN)],
        some ("unable to load config: " ++ err)) := by
  unfold CleanUp
  simp only [h]

theorem CleanUp_client_error (w : World) (c : ociDNSProviderSolver) (ch : ChallengeRequest)
    (cfg : ociDNSProviderConfig) (err : String) (h : loadConfig w ch.Config = .ok cfg)
    (h2 : (ociDNSClient w c cfg ch.ResourceNamespace).2 = .error err) :
    CleanUp w c ch =
      ([.klog ("call function CleanUp: namespace=" ++ ch.ResourceNamespace
          ++ ", zone=" ++ ch.ResolvedZone ++ ", fqdn=" ++ ch.ResolvedFQDN)]
        ++ (ociDNSClient w c cfg ch.ResourceNamespace).1,
        some ("unable to initialize ociDNSClient: " ++ err)) := by
  unfold CleanUp
  simp only [h, h2]

theorem CleanUp_mutation (w : World) (c : ociDNSProviderSolver) (ch : ChallengeRequest)
    (cfg : ociDNSProviderConfig) (client : DnsClient) (h : loadConfig w ch.Config = .ok cfg)
    (h2 : (ociDNSClient w c cfg ch.ResourceNamespace).2 = .ok client) :
    CleanUp w c ch =
      ([.klog ("call function CleanUp: namespace=" ++ ch.ResourceNamespace
          ++ ", zone=" ++ ch.ResolvedZone ++ ", fqdn=" ++ ch.ResolvedFQDN)]
        ++ (ociDNSClient w c cfg ch.ResourceNamespace).1
        ++ [.patchZoneRecords client (patchRequest cfg ch RecordOperationOperationRemove)],
        (w.patchZoneRecords client (patchRequest cfg ch RecordOperationOperationRemove)).map
          fun err => "can not delete TXT record: " ++ err) := by
  unfold CleanUp
  simp only [h, h2]
  cases w.patchZoneRecords client (patchRequest cfg ch RecordOperationOperationRemove) <;> rfl

theorem submitted_append (l₁ l₂ : List Call) :
    submitted (l₁ ++ l₂) = submitted l₁ ++ submitted l₂ := by
  induction l₁ with
  | nil => rfl
  | cons x t ih => cases x <;> simp [submitted, ih]

theorem submitted_of_no_mutation (l : List Call) (h : ∀ x ∈ l, x.isMutation = false) :
    submitted l = [] := by
  induction l with
  | nil => rfl
  | cons x t ih =>
    have ht := ih fun y hy => h y (List.mem_cons_of_mem _ hy)
    have hx := h x (List.mem_cons_self _ _)
    cases x <;> simp_all [submitted, Call.isMutation]

theorem withOperation_of_no_mutation (op : RecordOperationOperationEnum) (l : List Call)
    (h : ∀ x ∈ l, x.isMutation = false) :
    (l.filter fun x => !x.isLog).map (Call.withOperation op) = l.filter fun x => !x.isLog := by
  induction l with
  | nil => rfl
  | cons x t ih =>
    have ht := ih fun y hy => h y (List.mem_cons_of_mem _ hy)
    have hx := h x (List.mem_cons_self _ _)
    cases x <;> simp_all [List.filter, Call.isMutation, Call.isLog, Call.withOperation]

theorem retry_answer_needs_response (r : OCIOperationResponse) (b : Bool)
    (h : getDefaultRetryPolicy.ShouldRetryOperation r = .ok b) :
    ∃ resp, r.Response = some resp := by
  cases hr : r.Response with
  | some resp => exact ⟨resp, rfl⟩
  | none =>
    simp [getDefaultRetryPolicy, getExponentialBackoffRetryPolicy, NewRetryPolicy,
      retryOnAllNon200ResponseCodes, hr] at h

/-! ## The retry policy -/

/-- C1. On every outcome that carries an HTTP response, the retry predicate of
`getDefaultRetryPolicy` answers "do not retry" exactly when either the error is
nil and the status code lies in [200,300), or the status code is 401; on every
other such outcome it answers "retry". -/
theorem retryPredicate_false_iff (resp : HTTPResponse) (err : Option String) (k : Nat) :
    (getDefaultRetryPolicy.ShouldRetryOperation ⟨some resp, err, k⟩ = .ok false ↔
      ((err = none ∧ 200 ≤ resp.StatusCode ∧ resp.StatusCode < 300)
        ∨ resp.StatusCode = 401)) ∧
    (getDefaultRetryPolicy.ShouldRetryOperation ⟨some resp, err, k⟩ = .ok true ↔
      ¬ ((err = none ∧ 200 ≤ resp.StatusCode ∧ resp.StatusCode < 300)
        ∨ resp.StatusCode = 401)) := by
  simp only [getDefaultRetryPolicy, getExponentialBackoffRetryPolicy, NewRetryPolicy,
    retryOnAllNon200ResponseCodes]
  cases err
  · simp; omega
  · simp

/-- C2, as stated, fails: an outcome with status 200 and a non-nil error (the body
of a successful response could not be decoded) is retried. -/
theorem retryPredicate_retries_success_status_with_error :
    (200 : Int) ≤ 200 ∧ (200 : Int) < 300 ∧
    getDefaultRetryPolicy.ShouldRetryOperation
      ⟨some ⟨"200 OK", 200, sampleHTTPRequest⟩, some "unexpected end of JSON input", 1⟩
      = .ok true := by
  decide

/-- C2, amended. On an outcome with an HTTP response: status 401 is never retried,
whatever the error; a status in [200,300) is not retried when the error is nil and
is retried when the error is non-nil; every other status is retried. -/
theorem retryPredicate_by_status (resp : HTTPResponse) (err : Option String) (k : Nat) :
    (resp.StatusCode = 401 →
      getDefaultRetryPolicy.ShouldRetryOperation ⟨some resp, err, k⟩ = .ok false) ∧
    (200 ≤ resp.StatusCode → resp.StatusCode < 300 → err = none →
      getDefaultRetryPolicy.ShouldRetryOperation ⟨some resp, err, k⟩ = .ok false) ∧
    (200 ≤ resp.StatusCode → resp.StatusCode < 300 → err ≠ none →
      getDefaultRetryPolicy.ShouldRetryOperation ⟨some resp, err, k⟩ = .ok true) ∧
    (¬ (200 ≤ resp.StatusCode ∧ resp.StatusCode < 300) → resp.StatusCode ≠ 401 →
      getDefaultRetryPolicy.ShouldRetryOperation ⟨some resp, err, k⟩ = .ok true) := by
  simp only [getDefaultRetryPolicy, getExponentialBackoffRetryPolicy, NewRetryPolicy,
    retryOnAllNon200ResponseCodes]
  cases err
  · simp; omega
  · simp; omega

/-- Witness for the amended C2: a 503 without error is retried. -/
theorem retryPredicate_by_status_witness :
    getDefaultRetryPolicy.ShouldRetryOperation
      ⟨some ⟨"503 Service Unavailable", 503, sampleHTTPRequest⟩, none, 2⟩ = .ok true :=
  (retryPredicate_by_status ⟨"503 Service Unavailable", 503, sampleHTTPRequest⟩ none 2).2.2.2
    (by decide) (by decide)

/-- C3. For every attempt number `k` in [1,10] the backoff function of the policy
returns exactly `2^(k-1)` seconds, whatever the response and the error of the
outcome; below the cap the wait of the next attempt is twice as long. -/
theorem exponentialBackoff_exact (resp : HTTPResponse) (err : Option String) (k : Nat)
    (h1 : 1 ≤ k) (h10 : k ≤ 10) :
    getDefaultRetryPolicy.NextDuration ⟨some resp, err, k⟩
      = .ok ((2 : Int) ^ (k - 1) * Second) ∧
    (k < 10 → getDefaultRetryPolicy.NextDuration ⟨some resp, err, k + 1⟩
      = .ok (2 * ((2 : Int) ^ (k - 1) * Second))) := by
  simp only [getDefaultRetryPolicy, getExponentialBackoffRetryPolicy, NewRetryPolicy,
    exponentialBackoff]
  interval_cases k <;> decide

/-- Witness for C3: after the tenth attempt the wait is 512 s. -/
theorem exponentialBackoff_exact_witness :
    getDefaultRetryPolicy.NextDuration
      ⟨some ⟨"500 Internal Server Error", 500, sampleHTTPRequest⟩, none, 10⟩
      = .ok (512 * 1000000000) :=
  (exponentialBackoff_exact ⟨"500 Internal Server Error", 500, sampleHTTPRequest⟩ none 10
    (by decide) (by decide)).1

/-- C10 does not hold of the code. On an outcome without an HTTP response both
closures of the policy read a field of the nil response and panic: the predicate
at `response.StatusCode`, the backoff at `response.Request`. -/
theorem retryPolicy_panics_without_response (err : String) (k : Nat) :
    getDefaultRetryPolicy.ShouldRetryOperation ⟨none, some err, k⟩
      = .error .nilPointerDereference ∧
    getDefaultRetryPolicy.NextDuration ⟨none, some err, k⟩
      = .error .nilPointerDereference := by
  exact ⟨rfl, rfl⟩

/-! ## The mutation request -/

/-- C4. `patchRequest cfg ch op` carries the compartment of `cfg`, the zone of `ch`
and exactly one record operation: the domain is the FQDN without one trailing "."
when it has one and the FQDN itself otherwise, the type is TXT, the data is the
key, the TTL is 60 and the operation is `op`.  The scenario of the specification
is the last conjunct. -/
theorem patchRequest_fields (cfg : ociDNSProviderConfig) (ch : ChallengeRequest)
    (op : RecordOperationOperationEnum) :
    (patchRequest cfg ch op).CompartmentId = some cfg.CompartmentOCID ∧
    (patchRequest cfg ch op).ZoneNameOrId = some ch.ResolvedZone ∧
    (∃ domain : String,
      (patchRequest cfg ch op).PatchZoneRecordsDetails.Items =
        [⟨some domain, some "TXT", some ch.Key, some 60, op⟩] ∧
      (∀ s : String, ch.ResolvedFQDN = s ++ "." → domain = s) ∧
      ((∀ s : String, ch.ResolvedFQDN ≠ s ++ ".") → domain = ch.ResolvedFQDN)) ∧
    (patchRequest cfg ⟨ch.ResourceNamespace, "_acme-challenge.example.com.", "example.com",
        "abc123", ch.Config⟩ RecordOperationOperationAdd).PatchZoneRecordsDetails.Items =
      [⟨some "_acme-challenge.example.com", some "TXT", some "abc123", some 60,
        RecordOperationOperationAdd⟩] := by
  have hw : TrimSuffix "_acme-challenge.example.com." "." = "_acme-challenge.example.com" := by
    decide
  refine ⟨rfl, rfl, ⟨TrimSuffix ch.ResolvedFQDN ".", rfl, ?_, ?_⟩, by simp [patchRequest, hw]⟩
  · intro s hs
    rw [hs, TrimSuffix_append]
  · intro hs
    apply TrimSuffix_of_not_hasSuffix
    cases h : HasSuffix ch.ResolvedFQDN "."
    · rfl
    · obtain ⟨t, ht⟩ := exists_append_of_hasSuffix _ _ h
      exact absurd ht (hs t)

/-- Witness for C4: the sample request, whose FQDN ends in ".". -/
theorem patchRequest_fields_witness :
    ∃ domain : String,
      (patchRequest sampleConfig sampleRequest
          RecordOperationOperationAdd).PatchZoneRecordsDetails.Items =
        [⟨some domain, some "TXT", some "abc123", some 60, RecordOperationOperationAdd⟩] ∧
      domain = "_acme-challenge.example.com" := by
  obtain ⟨d, h1, h2, _⟩ :=
    (patchRequest_fields sampleConfig sampleRequest RecordOperationOperationAdd).2.2.1
  exact ⟨d, h1, h2 "_acme-challenge.example.com" (by decide)⟩

/-- C9, as stated, fails: for the FQDN "example.com.." the domain of the request is
"example.com.", which still ends in "." and which a second stripping changes. -/
theorem patchRequest_domain_double_dot :
    (patchRequest sampleConfig { sampleRequest with ResolvedFQDN := "example.com.." }
        RecordOperationOperationAdd).PatchZoneRecordsDetails.Items.map (fun i => i.Domain)
      = [some "example.com."] ∧
    HasSuffix "example.com." "." = true ∧
    TrimSuffix "example.com." "." ≠ "example.com." := by
  decide

/-- C9, amended. The domain of the request is the FQDN with one trailing "." removed
when present; whenever the FQDN does not end in "..", that domain does not end in
"." and stripping it again changes nothing. -/
theorem patchRequest_domain_strips_one_dot (cfg : ociDNSProviderConfig)
    (ch : ChallengeRequest) (op : RecordOperationOperationEnum) :
    (patchRequest cfg ch op).PatchZoneRecordsDetails.Items.map (fun i => i.Domain)
      = [some (TrimSuffix ch.ResolvedFQDN ".")] ∧
    (∀ s : String, ch.ResolvedFQDN = s ++ "." → TrimSuffix ch.ResolvedFQDN "." = s) ∧
    (HasSuffix ch.ResolvedFQDN "." = false →
      TrimSuffix ch.ResolvedFQDN "." = ch.ResolvedFQDN) ∧
    (HasSuffix ch.ResolvedFQDN ".." = false →
      HasSuffix (TrimSuffix ch.ResolvedFQDN ".") "." = false ∧
      TrimSuffix (TrimSuffix ch.ResolvedFQDN ".") "." = TrimSuffix ch.ResolvedFQDN ".") := by
  refine ⟨rfl, ?_, TrimSuffix_of_not_hasSuffix _ _, ?_⟩
  · intro s hs
    rw [hs, TrimSuffix_append]
  · intro h2
    have key : HasSuffix (TrimSuffix ch.ResolvedFQDN ".") "." = false := by
      cases h : HasSuffix ch.ResolvedFQDN "."
      · rw [TrimSuffix_of_not_hasSuffix _ _ h]; exact h
      · obtain ⟨t, ht⟩ := exists_append_of_hasSuffix _ _ h
        rw [ht, TrimSuffix_append]
        rw [ht, hasSuffix_dot_of_append_dot] at h2
        exact h2
    exact ⟨key, TrimSuffix_of_not_hasSuffix _ _ key⟩

/-- Witness for the amended C9: the sample request. -/
theorem patchRequest_domain_strips_one_dot_witness :
    HasSuffix (TrimSuffix sampleRequest.ResolvedFQDN ".") "." = false ∧
    TrimSuffix (TrimSuffix sampleRequest.ResolvedFQDN ".") "."
      = TrimSuffix sampleRequest.ResolvedFQDN "." :=
  (patchRequest_domain_strips_one_dot sampleConfig sampleRequest
    RecordOperationOperationAdd).2.2.2 (by decide)

/-! ## Credential resolution -/

/-- C5. In `ociDNSClient`, when the secret lookup failed or the secret lacks one of
the six keys, the explicit-credential strategy is not selected, whatever else the
secret holds and whatever the flag; with the flag disabled the instance-principal
strategy is attempted and the outcome is that of this strategy and of the client
construction alone.  With the flag disabled the explicit-credential strategy is
selected exactly when the lookup succeeded and all six keys are present. -/
theorem ociDNSClient_explicit_iff_complete (w : World) (c : ociDNSProviderSolver)
    (cfg : ociDNSProviderConfig) (ns : String) :
    (((c.client.secretsGet ns cfg.OCIProfileSecretRef).2 ≠ none ∨
        (∃ k ∈ requiredKeys,
          (c.client.secretsGet ns cfg.OCIProfileSecretRef).1.Data.lookup k = none)) →
      (ociDNSClient w c cfg ns).1.any Call.isExplicitCredential = false ∧
      (w.getenv "OCI_USE_WORKLOAD_IDENTITY" ≠ "true" →
        (ociDNSClient w c cfg ns).1.any Call.isInstancePrincipal = true ∧
        (ociDNSClient w c cfg ns).1.any Call.isWorkloadIdentity = false ∧
        (ociDNSClient w c cfg ns).2 =
          match w.instancePrincipalConfigurationProvider with
          | some err => .error ("unable to authenticate with Instance Principal; " ++ err)
          | none =>
            match w.newDnsClientWithConfigurationProvider .instancePrincipal with
            | some err => .error err
            | none => .ok ⟨.instancePrincipal⟩)) ∧
    (w.getenv "OCI_USE_WORKLOAD_IDENTITY" ≠ "true" →
      ((ociDNSClient w c cfg ns).1.any Call.isExplicitCredential = true ↔
        (c.client.secretsGet ns cfg.OCIProfileSecretRef).2 = none ∧
        ∀ k ∈ requiredKeys,
          ((c.client.secretsGet ns cfg.OCIProfileSecretRef).1.Data.lookup k).isSome = true)) := by
  constructor
  · intro hmiss
    have hv := (userConfigIsValid_false_iff _).mpr hmiss
    by_cases hf : w.getenv "OCI_USE_WORKLOAD_IDENTITY" = "true"
    · refine ⟨?_, fun h => absurd hf h⟩
      rw [ociDNSClient_workloadIdentity w c cfg ns hf]
      cases w.okeWorkloadIdentityConfigurationProvider <;>
      simp [resolverPrelude, Call.isExplicitCredential]
    · rw [ociDNSClient_instancePrincipal w c cfg ns hf hv]
      cases h1 : w.instancePrincipalConfigurationProvider <;>
      simp [resolverPrelude, Call.isExplicitCredential, Call.isInstancePrincipal,
        Call.isWorkloadIdentity, clientOutcome]
  · intro hf
    rw [← userConfigIsValid_iff]
    cases hv : userConfigIsValid (c.client.secretsGet ns cfg.OCIProfileSecretRef)
    · rw [ociDNSClient_instancePrincipal w c cfg ns hf hv]
      cases w.instancePrincipalConfigurationProvider <;>
      simp [resolverPrelude, Call.isExplicitCredential]
    · rw [ociDNSClient_explicit w c cfg ns hf hv]
      simp [resolverPrelude, Call.isExplicitCredential]

/-- Witness for C5: a secret without the passphrase field sends the resolver to the
instance-principal strategy. -/
theorem ociDNSClient_explicit_iff_complete_witness :
    (ociDNSClient sampleWorld incompleteSolver sampleConfig "cert-manager").1.any
        Call.isExplicitCredential = false ∧
    (ociDNSClient sampleWorld incompleteSolver sampleConfig "cert-manager").2
      = .ok ⟨.instancePrincipal⟩ := by
  have h := (ociDNSClient_explicit_iff_complete sampleWorld incompleteSolver sampleConfig
    "cert-manager").1 (Or.inr ⟨"privateKeyPassphrase", by decide, by decide⟩)
  exact ⟨h.1, (h.2 (by decide)).2.2⟩

/-! ## The solver operations -/

/-- C6, as stated, fails: with the flag enabled and the workload-identity provider
failing, `Present` returns the fatal error, but its trace does contain a read of
secret storage (made before the flag is consulted). -/
theorem present_reads_secret_before_flag :
    workloadIdentityWorld.getenv "OCI_USE_WORKLOAD_IDENTITY" = "true" ∧
    workloadIdentityWorld.okeWorkloadIdentityConfigurationProvider ≠ none ∧
    (Present workloadIdentityWorld sampleSolver sampleRequest).2 =
      some ("unable to initialize ociDNSClient: "
        ++ "unable to authenticate with Workload Identity; token file not found") ∧
    (Present workloadIdentityWorld sampleSolver sampleRequest).1.any Call.isSecretRead
      = true := by
  decide

/-- C6, amended. For a request whose configuration decodes, `Present` reads secret
storage exactly once, whether the flag is enabled or not; with the flag enabled and
the workload-identity provider failing to initialise it returns the fatal error and
its calls, log lines aside, are the secret read, the read of the flag and the failed
initialisation, in this order.  When the configuration does not decode, secret
storage is not read. -/
theorem present_secret_read_once (w : World) (c : ociDNSProviderSolver)
    (ch : ChallengeRequest) :
    (∀ cfg, loadConfig w ch.Config = .ok cfg →
      (Present w c ch).1.countP Call.isSecretRead = 1 ∧
      (w.getenv "OCI_USE_WORKLOAD_IDENTITY" = "true" →
        ∀ err, w.okeWorkloadIdentityConfigurationProvider = some err →
          (Present w c ch).2 = some ("unable to initialize ociDNSClient: "
            ++ ("unable to authenticate with Workload Identity; " ++ err)) ∧
          (Present w c ch).1.filter (fun x => !x.isLog) =
            [.secretsGet ch.ResourceNamespace cfg.OCIProfileSecretRef,
             .getenv "OCI_USE_WORKLOAD_IDENTITY",
             .okeWorkloadIdentityConfigurationProvider])) ∧
    (∀ err, loadConfig w ch.Config = .error err →
      (Present w c ch).1.countP Call.isSecretRead = 0) := by
  constructor
  · intro cfg hcfg
    constructor
    · have h1 := ociDNSClient_secret_read_once w c cfg ch.ResourceNamespace
      cases h2 : (ociDNSClient w c cfg ch.ResourceNamespace).2 with
      | error e =>
        rw [Present_client_error w c ch cfg e hcfg h2]
        simp [List.countP_append, List.countP_cons, h1, Call.isSecretRead]
      | ok client =>
        rw [Present_mutation w c ch cfg client hcfg h2]
        simp [List.countP_append, List.countP_cons, h1, Call.isSecretRead]
    · intro hf err hwi
      have h2 : (ociDNSClient w c cfg ch.ResourceNamespace).2
          = .error ("unable to authenticate with Workload Identity; " ++ err) := by
        rw [ociDNSClient_workloadIdentity w c cfg _ hf, hwi]
      rw [Present_client_error w c ch cfg _ hcfg h2,
        ociDNSClient_workloadIdentity w c cfg _ hf, hwi]
      simp [resolverPrelude, Call.isLog, List.filter]
  · intro err herr
    rw [Present_decode_error w c ch err herr]
    simp [Call.isSecretRead, List.countP_cons]

/-- Witness for the amended C6: the world where workload identity is enabled and
fails. -/
theorem present_secret_read_once_witness :
    (Present workloadIdentityWorld sampleSolver sampleRequest).1.countP Call.isSecretRead = 1 ∧
    (Present workloadIdentityWorld sampleSolver sampleRequest).1.filter (fun x => !x.isLog) =
      [.secretsGet "cert-manager" "oci-profile", .getenv "OCI_USE_WORKLOAD_IDENTITY",
       .okeWorkloadIdentityConfigurationProvider] := by
  have h := (present_secret_read_once workloadIdentityWorld sampleSolver sampleRequest).1
    sampleConfig (by decide)
  exact ⟨h.1, (h.2 (by decide) "token file not found" (by decide)).2⟩

/-- C7. `Present` and `CleanUp` run decode, authenticate, mutate in this order and
stop at the first stage that fails.  If `loadConfig` fails, the error is annotated
"unable to load config" and the trace holds nothing but the entry log line.  If
`ociDNSClient` fails, the error is annotated "unable to initialize ociDNSClient" and
the trace holds no mutation call.  If both succeed, the trace is the entry log
line, the calls of `ociDNSClient`, then the one mutation call, and a failure of that
call is annotated "can not create TXT record" (respectively "can not delete TXT
record").  The returned error is nil only when all three stages succeeded. -/
theorem present_cleanup_fail_closed (w : World) (c : ociDNSProviderSolver)
    (ch : ChallengeRequest) :
    (∀ err, loadConfig w ch.Config = .error err →
      (Present w c ch).2 = some ("unable to load config: " ++ err) ∧
      (CleanUp w c ch).2 = some ("unable to load config: " ++ err) ∧
      (Present w c ch).1.all Call.isLog = true ∧
      (CleanUp w c ch).1.all Call.isLog = true) ∧
    (∀ cfg err, loadConfig w ch.Config = .ok cfg →
      (ociDNSClient w c cfg ch.ResourceNamespace).2 = .error err →
      (Present w c ch).2 = some ("unable to initialize ociDNSClient: " ++ err) ∧
      (CleanUp w c ch).2 = some ("unable to initialize ociDNSClient: " ++ err) ∧
      (Present w c ch).1.any Call.isMutation = false ∧
      (CleanUp w c ch).1.any Call.isMutation = false) ∧
    (∀ cfg client, loadConfig w ch.Config = .ok cfg →
      (ociDNSClient w c cfg ch.ResourceNamespace).2 = .ok client →
      (∃ entry, (Present w c ch).1 =
        [.klog entry] ++ (ociDNSClient w c cfg ch.ResourceNamespace).1
          ++ [.patchZoneRecords client (patchRequest cfg ch RecordOperationOperationAdd)]) ∧
      (∃ entry, (CleanUp w c ch).1 =
        [.klog entry] ++ (ociDNSClient w c cfg ch.ResourceNamespace).1
          ++ [.patchZoneRecords client (patchRequest cfg ch RecordOperationOperationRemove)]) ∧
      (∀ err,
        w.patchZoneRecords client (patchRequest cfg ch RecordOperationOperationAdd) = some err →
        (Present w c ch).2 = some ("can not create TXT record: " ++ err)) ∧
      (∀ err,
        w.patchZoneRecords client (patchRequest cfg ch RecordOperationOperationRemove)
          = some err →
        (CleanUp w c ch).2 = some ("can not delete TXT record: " ++ err))) ∧
    ((Present w c ch).2 = none ↔
      ∃ cfg client, loadConfig w ch.Config = .ok cfg ∧
        (ociDNSClient w c cfg ch.ResourceNamespace).2 = .ok client ∧
        w.patchZoneRecords client (patchRequest cfg ch RecordOperationOperationAdd) = none) ∧
    ((CleanUp w c ch).2 = none ↔
      ∃ cfg client, loadConfig w ch.Config = .ok cfg ∧
        (ociDNSClient w c cfg ch.ResourceNamespace).2 = .ok client ∧
        w.patchZoneRecords client (patchRequest cfg ch RecordOperationOperationRemove)
          = none) := by
  refine ⟨?_, ?_, ?_, ?_, ?_⟩
  · intro err h
    rw [Present_decode_error w c ch err h, CleanUp_decode_error w c ch err h]
    simp [Call.isLog]
  · intro cfg err h h2
    have hm := ociDNSClient_no_mutation w c cfg ch.ResourceNamespace
    rw [Present_client_error w c ch cfg err h h2, CleanUp_client_error w c ch cfg err h h2]
    refine ⟨rfl, rfl, ?_, ?_⟩ <;>
    · simp only [List.any_append, List.any_cons, List.any_nil, Call.isMutation,
        Bool.or_false, Bool.false_or]
      rw [List.any_eq_false]
      intro x hx
      simp [hm x hx]
  · intro cfg client h h2
    rw [Present_mutation w c ch cfg client h h2, CleanUp_mutation w c ch cfg client h h2]
    refine ⟨⟨_, rfl⟩, ⟨_, rfl⟩, ?_, ?_⟩ <;>
    · intro err he
      simp [he]
  · cases h : loadConfig w ch.Config with
    | error e =>
      rw [Present_decode_error w c ch e h]
      simp
    | ok cfg =>
      cases h2 : (ociDNSClient w c cfg ch.ResourceNamespace).2 with
      | error e =>
        rw [Present_client_error w c ch cfg e h h2]
        simp [h2]
      | ok client =>
        rw [Present_mutation w c ch cfg client h h2]
        simp [h2]
  · cases h : loadConfig w ch.Config with
    | error e =>
      rw [CleanUp_decode_error w c ch e h]
      simp
    | ok cfg =>
      cases h2 : (ociDNSClient w c cfg ch.ResourceNamespace).2 with
      | error e =>
        rw [CleanUp_client_error w c ch cfg e h h2]
        simp [h2]
      | ok client =>
        rw [CleanUp_mutation w c ch cfg client h h2]
        simp [h2]

/-- Witness for C7: a blob that does not decode stops both operations before any
credential or provider call. -/
theorem present_cleanup_fail_closed_witness :
    (Present sampleWorld sampleSolver malformedRequest).2 =
      some ("unable to load config: " ++ "cannot unmarshal raw JSON: unexpected end of JSON input") ∧
    (CleanUp sampleWorld sampleSolver malformedRequest).2 =
      some ("unable to load config: " ++ "cannot unmarshal raw JSON: unexpected end of JSON input") ∧
    (Present sampleWorld sampleSolver malformedRequest).1.all Call.isLog = true ∧
    (CleanUp sampleWorld sampleSolver malformedRequest).1.all Call.isLog = true :=
  (present_cleanup_fail_closed sampleWorld sampleSolver malformedRequest).1
    "cannot unmarshal raw JSON: unexpected end of JSON input" (by decide)

/-- C8. `CleanUp` runs the pipeline of `Present` with the operation kind replaced:
log lines aside, its calls are those of `Present` with every submitted record
operation turned into a removal.  The request it builds agrees with the one
`Present` builds in compartment, zone and retry metadata, and its item list is
that of `Present` with the operation set to remove: exactly one record operation,
for the same domain, type TXT and TTL 60, whose record data is the key of the
request. -/
theorem cleanup_same_pipeline_as_present (w : World) (c : ociDNSProviderSolver)
    (ch : ChallengeRequest) (cfg : ociDNSProviderConfig) :
    (CleanUp w c ch).1.filter (fun x => !x.isLog) =
      ((Present w c ch).1.filter (fun x => !x.isLog)).map
        (Call.withOperation RecordOperationOperationRemove) ∧
    (patchRequest cfg ch RecordOperationOperationRemove).CompartmentId =
      (patchRequest cfg ch RecordOperationOperationAdd).CompartmentId ∧
    (patchRequest cfg ch RecordOperationOperationRemove).ZoneNameOrId =
      (patchRequest cfg ch RecordOperationOperationAdd).ZoneNameOrId ∧
    (patchRequest cfg ch RecordOperationOperationRemove).RequestMetadata =
      (patchRequest cfg ch RecordOperationOperationAdd).RequestMetadata ∧
    (patchRequest cfg ch RecordOperationOperationRemove).PatchZoneRecordsDetails.Items =
      (patchRequest cfg ch RecordOperationOperationAdd).PatchZoneRecordsDetails.Items.map
        (fun item => { item with Operation := RecordOperationOperationRemove }) ∧
    (patchRequest cfg ch RecordOperationOperationRemove).PatchZoneRecordsDetails.Items =
      [{ Domain := some (TrimSuffix ch.ResolvedFQDN "."), Rtype := some "TXT",
         Rdata := some ch.Key, Ttl := some 60,
         Operation := RecordOperationOperationRemove }] ∧
    submitted (CleanUp w c ch).1 =
      (submitted (Present w c ch).1).map fun request =>
        { request with
          PatchZoneRecordsDetails :=
            ⟨request.PatchZoneRecordsDetails.Items.map fun item =>
              { item with Operation := RecordOperationOperationRemove }⟩ } := by
  have e1 : ∀ m, (Call.klog m).isLog = true := fun _ => rfl
  have e2 : ∀ cl r, (Call.patchZoneRecords cl r).isLog = false := fun _ _ => rfl
  refine ⟨?_, rfl, rfl, rfl, rfl, rfl, ?_⟩
  · cases h : loadConfig w ch.Config with
    | error e =>
      rw [Present_decode_error w c ch e h, CleanUp_decode_error w c ch e h]
      simp [List.filter_cons, e1]
    | ok cfg1 =>
      have hm := withOperation_of_no_mutation RecordOperationOperationRemove _
        (ociDNSClient_no_mutation w c cfg1 ch.ResourceNamespace)
      cases h2 : (ociDNSClient w c cfg1 ch.ResourceNamespace).2 with
      | error e =>
        rw [Present_client_error w c ch cfg1 e h h2, CleanUp_client_error w c ch cfg1 e h h2]
        simp [List.filter_cons, e1, hm]
      | ok client =>
        rw [Present_mutation w c ch cfg1 client h h2, CleanUp_mutation w c ch cfg1 client h h2]
        simp [List.filter_cons, e1, e2, hm, Call.withOperation, patchRequest]
  · cases h : loadConfig w ch.Config with
    | error e =>
      rw [Present_decode_error w c ch e h, CleanUp_decode_error w c ch e h]
      simp [submitted]
    | ok cfg1 =>
      have hm := submitted_of_no_mutation _
        (ociDNSClient_no_mutation w c cfg1 ch.ResourceNamespace)
      cases h2 : (ociDNSClient w c cfg1 ch.ResourceNamespace).2 with
      | error e =>
        rw [Present_client_error w c ch cfg1 e h h2, CleanUp_client_error w c ch cfg1 e h h2]
        simp [submitted_append, submitted, hm]
      | ok client =>
        rw [Present_mutation w c ch cfg1 client h h2, CleanUp_mutation w c ch cfg1 client h h2]
        simp [submitted_append, submitted, hm, patchRequest]

end OciWebhook
